import Mathlib

/-!
Verification of the preprocessing / feature pipeline of the swfm ml-service
(`apps/ml-service/app/services/preprocessing_service.py` and
`apps/ml-service/app/routers/predict.py`).

The pandas frames are shallowly embedded: a station's time-ordered series is a
`List ℚ` (the frames produced by `get_station_data` are sorted by `measured_at`
ascending and the per-station transforms operate on the group's series in that
order), a nullable column is a `List (Option ℚ)` where `none` stands for NaN,
and timestamps are measured in minutes.  All numeric work in the source is
plain float arithmetic on small decimal values; it is modelled with exact
rationals.
-/

/-! ## Interval estimation

`apply_lag_features` (preprocessing_service.py lines 193-215) detects a
station's sampling interval:

  time_diffs = station_df['measured_at'].diff().dt.total_seconds() / 60
  mode_interval = time_diffs.mode().values[0] if len(time_diffs.mode()) > 0 else 30
  periods_per_hour = 60 / mode_interval

`Series.diff` yields NaN for the first element and the consecutive differences
afterwards; `Series.mode` drops NaN, keeps every value of maximal multiplicity
and returns them sorted ascending, so `.values[0]` is the smallest value of
maximal multiplicity.  The same inline computation appears in
`apply_rolling_statistics` and `apply_rate_of_change`. -/

/-- Consecutive timestamp differences (`Series.diff` with the leading NaN
dropped), for timestamps given in minutes. -/
def timeDiffs : List ℚ → List ℚ
  | [] => []
  | [_] => []
  | a :: b :: rest => (b - a) :: timeDiffs (b :: rest)

/-- Minimum of a list of rationals. -/
def minQ : List ℚ → Option ℚ
  | [] => none
  | x :: xs =>
    match minQ xs with
    | none => some x
    | some m => some (min x m)

/-- The values of maximal multiplicity in a list (the candidates pandas
`Series.mode` returns). -/
def modeCandidates (l : List ℚ) : List ℚ :=
  l.filter (fun x => l.all (fun y => decide (l.count y ≤ l.count x)))

/-- Pandas `Series.mode().values[0]`: the smallest value of maximal
multiplicity (`mode` returns the modes sorted ascending), `none` on an empty
series. -/
def pandasMode (l : List ℚ) : Option ℚ :=
  minQ (modeCandidates l)

/-- `mode_interval`: the detected interval in minutes, defaulting to 30 when
the diff series has no mode at all (empty after dropping NaN). -/
def mode_interval (diffs : List ℚ) : ℚ :=
  (pandasMode diffs).getD 30

/-- `periods_per_hour = 60 / mode_interval`. -/
def periods_per_hour (diffs : List ℚ) : ℚ :=
  60 / mode_interval diffs

/-! ## Row shifting: lag features and target creation

`apply_lag_features` (lines 182-217) computes, per station group,

  shift_periods = int(lag * periods_per_hour)
  df[f'water_level_lag_{lag}h'] = df['water_level'].shift(shift_periods)

and `create_targets` (lines 383-404) computes, per station group,

  shift_periods = horizon // 15
  df[f'target_{horizon}min'] = df['water_level'].shift(-shift_periods)

(`groupby('station_id')...shift` applies the shift to each group's series
independently; the model below is the series of one station group, time
ordered.) -/

/-- Pandas `Series.shift(k)` for `k ≥ 0`: values move down `k` rows, the
first `min k length` rows become NaN and the tail is dropped. -/
def pandasShift (k : ℕ) (xs : List ℚ) : List (Option ℚ) :=
  List.replicate (min k xs.length) none ++ (xs.take (xs.length - k)).map some

/-- `shift_periods = int(lag * periods_per_hour)`: Python `int()` truncates
toward zero, which on this nonnegative product is the floor. -/
def shift_periods (lag : ℚ) (ts : List ℚ) : ℕ :=
  (⌊lag * periods_per_hour (timeDiffs ts)⌋).toNat

/-- The `water_level_lag_{lag}h` column of one station group with timestamps
`ts` (minutes) and water levels `wl`. -/
def lag_column (lag : ℚ) (ts wl : List ℚ) : List (Option ℚ) :=
  pandasShift (shift_periods lag ts) wl

/-- Pandas `Series.shift(-k)`: values move up `k` rows, the last
`min k length` rows become NaN. -/
def pandasShiftNeg (k : ℕ) (xs : List ℚ) : List (Option ℚ) :=
  (xs.drop k).map some ++ List.replicate (min k xs.length) none

/-- `create_targets` hard-codes `data_interval_minutes = 15`, independent of
the detected per-station interval. -/
def data_interval_minutes : ℕ := 15

/-- The `target_{horizon}min` column of one station group:
`water_level` shifted by `-(horizon // 15)` rows. -/
def target_column (horizon : ℕ) (wl : List ℚ) : List (Option ℚ) :=
  pandasShiftNeg (horizon / data_interval_minutes) wl

/-! ## Station exclusion

`get_station_data` (preprocessing_service.py lines 50-180) removes stations
1 and 7 from the fetched frame (`~df['station_id'].isin([1, 7])`, and
`not_.in_('station_id', [1, 7])` on the fallback query) and raises ValueError
when the requested station_id is itself excluded; the /generate-forecasts
endpoint (predict.py lines 101-107) rejects a request for an excluded station
with HTTP 400 before any feature preparation.  The feature transforms only
add columns and `clean_data` only drops rows, so the rows of the final
FeatureTable are a filtered subset of the rows `get_station_data` returned;
the cleaning predicate is abstract (`keep`) below. -/

/-- A station measurement row; only the station identifier matters for the
exclusion property, `water_level` stands for the payload. -/
structure SRow where
  station_id : ℤ
  water_level : ℚ
deriving DecidableEq

/-- The excluded station identifiers, hard-coded to 1 and 7. -/
def excluded_station_ids : List ℤ := [1, 7]

/-- `get_station_data(station_id, ...)`: the exclusion filter is applied to
the fetched rows, a request for an excluded station is a hard error, and a
requested station is then selected from the filtered rows. -/
def get_station_data : Option ℤ → List SRow → Except String (List SRow)
  | none, rows =>
    .ok (rows.filter (fun r => !(excluded_station_ids.contains r.station_id)))
  | some sid, rows =>
    if excluded_station_ids.contains sid then
      .error "Station is excluded from training and prediction"
    else
      .ok ((rows.filter
        (fun r => !(excluded_station_ids.contains r.station_id))).filter
        (fun r => r.station_id == sid))

/-- The rows of the FeatureTable produced by `preprocess_data`: transforms
preserve rows, `clean_data` keeps the rows satisfying a predicate (`keep`
abstracts its lag-completeness test). -/
def feature_table_rows (station_id : Option ℤ) (rows : List SRow)
    (keep : SRow → Bool) : Except String (List SRow) :=
  match get_station_data station_id rows with
  | .error e => .error e
  | .ok d => .ok (d.filter keep)

/-- The excluded-station guard of the /generate-forecasts endpoint
(predict.py lines 101-107), evaluated before any feature preparation. -/
def generate_forecasts_guard (station_id : Option ℤ) : Except String Unit :=
  match station_id with
  | some sid =>
    if excluded_station_ids.contains sid then
      .error "Station is excluded from predictions due to data quality issues"
    else
      .ok ()
  | none => .ok ()

/-- Whether an Except value is the error case. -/
def isError {α : Type} (e : Except String α) : Bool :=
  match e with
  | .error _ => true
  | .ok _ => false

/-! ## Recursive multi-horizon predictor

The /generate-forecasts endpoint (predict.py lines 149-354) iterates over the
requested horizons keeping a mutable `X_current` and `previous_prediction`;
at the top of each iteration, if a previous prediction exists it overwrites
`X_current['water_level']` and `X_current['water_level_lag_1h']` with it;
a horizon whose model does not resolve or load is skipped by `continue`
(the overwrite already happened); a produced prediction becomes
`previous_prediction` for the following horizons. -/

/-- The feature vector of the single latest row fed to a model;
`water_level_lag_1h` is the shortest default lag feature, `station_id`
stands for the features the recursive update does not touch. -/
structure FeatureVec where
  station_id : ℤ
  water_level : ℚ
  water_level_lag_1h : ℚ
deriving DecidableEq

/-- Lines 169-189: overwrite `water_level` and `water_level_lag_1h` with the
previous prediction when one exists. -/
def update_with_previous (previous : Option ℚ) (x : FeatureVec) : FeatureVec :=
  match previous with
  | none => x
  | some p => { x with water_level := p, water_level_lag_1h := p }

/-- The per-horizon loop: `models h` is `some m` when a registered model
resolves and loads for horizon `h` (`m` maps the aligned, scaled feature
vector to `float(np.mean(model.predict(...)))` of the single row), `none`
when the horizon is skipped by `continue`. -/
def recursive_forecasts (models : ℕ → Option (FeatureVec → ℚ)) :
    List ℕ → FeatureVec → Option ℚ → List (ℕ × ℚ)
  | [], _, _ => []
  | h :: rest, x, previous =>
    let x1 := update_with_previous previous x
    match models h with
    | none => recursive_forecasts models rest x1 previous
    | some m => (h, m x1) :: recursive_forecasts models rest x1 (some (m x1))

/-! ## Rolling statistics

`apply_rolling_statistics` (lines 219-271) computes, per station group,

  window_periods = int(window * periods_per_hour)
  df['water_level'].rolling(window=window_periods, min_periods=min_periods).mean()
  df['water_level'].rolling(window=window_periods, min_periods=min_periods).std()

A pandas trailing rolling window at row i holds the last min(i+1, w) values;
the aggregate is produced when that count is at least min_periods, else NaN.
`.std()` is the sample standard deviation (ddof = 1), which is NaN on fewer
than 2 observations even when min_periods admits the window.  The standard
deviation is represented below by its square, the sample variance: an entry
is none exactly when the code's rolling std is NaN. -/

/-- The trailing window of up to `w` rows ending at row `i`. -/
def rolling_window (w : ℕ) (xs : List ℚ) (i : ℕ) : List ℚ :=
  (xs.take (i + 1)).drop (i + 1 - w)

/-- Arithmetic mean of a list of values. -/
def list_mean (l : List ℚ) : ℚ := l.sum / l.length

/-- Sample variance (ddof = 1), defined only on 2 or more observations —
pandas std of fewer observations is NaN. -/
def sample_variance (l : List ℚ) : Option ℚ :=
  if 2 ≤ l.length then
    some ((l.map (fun x => (x - list_mean l) ^ 2)).sum / ((l.length : ℚ) - 1))
  else none

/-- `rolling(window=w, min_periods=minp).mean()` of one station's series. -/
def rolling_mean (w minp : ℕ) (xs : List ℚ) : List (Option ℚ) :=
  (List.range xs.length).map (fun i =>
    if minp ≤ (rolling_window w xs i).length then
      some (list_mean (rolling_window w xs i))
    else none)

/-- `rolling(window=w, min_periods=minp).std()` of one station's series,
represented by its square, the sample variance. -/
def rolling_std_sq (w minp : ℕ) (xs : List ℚ) : List (Option ℚ) :=
  (List.range xs.length).map (fun i =>
    if minp ≤ (rolling_window w xs i).length then
      sample_variance (rolling_window w xs i)
    else none)

/-! ## Inference NaN filling

`prepare_latest_data_for_prediction` (lines 556-634) extracts the most
recent row of the preprocessed frame; for each feature that is NaN there it
computes `col_mean = df[col].mean()` over the whole preparation window and
fills the NaN with it — except that when the column mean is itself NaN (the
column has no observed value at all) it falls back to filling with the
constant 0 (lines 608-611). -/

/-- Pandas `Series.mean()`: mean of the non-null values, NaN when there are
none. -/
def column_mean (col : List (Option ℚ)) : Option ℚ :=
  if (col.filterMap id).length = 0 then none
  else some ((col.filterMap id).sum / ((col.filterMap id).length : ℚ))

/-- The value of one feature of the latest row after the NaN handling of
`prepare_latest_data_for_prediction`: a non-null latest value is kept; a
null latest value is filled with the column mean over the preparation
window, or with 0 when that mean is itself NaN. -/
def fill_latest_feature (col : List (Option ℚ)) : Option ℚ :=
  match col.getLast? with
  | none => none
  | some (some v) => some v
  | some none =>
    match column_mean col with
    | some m => some m
    | none => some 0

/-! ## Data cleaning

`clean_data` (lines 406-434): (a) when `remove_rows_with_missing_lags`
(default true), drop every row with a null in any column whose name contains
'lag_'; (b) for every numeric column not in
['measured_at', 'created_at', 'id', 'station_id'] that still has nulls,
fill them with the column's median (strategy 'median', the default) or mean
(strategy 'mean') computed over the cleaned frame; any other strategy leaves
nulls alone.  An all-null column's median/mean is NaN and `fillna(NaN)`
leaves the column unchanged.  A frame is a header of column names plus rows
of nullable numeric cells. -/

/-- A tabular frame: column names and rows of nullable numeric cells. -/
structure DFrame where
  header : List String
  rows : List (List (Option ℚ))
deriving DecidableEq

/-- The `data_cleaning` configuration. -/
structure CleanConfig where
  remove_rows_with_missing_lags : Bool
  missing_value_strategy : String
deriving DecidableEq

/-- The defaults `config.get('remove_rows_with_missing_lags', True)` and
`config.get('missing_value_strategy', 'median')`. -/
def default_clean_config : CleanConfig := ⟨true, "median"⟩

/-- Whether `pat` occurs as a contiguous run inside `s`. -/
def charsContain : List Char → List Char → Bool
  | [], pat => pat.isEmpty
  | c :: tail, pat => pat.isPrefixOf (c :: tail) || charsContain tail pat

/-- Python `'lag_' in col` on a column name. -/
def contains_lag_marker (name : String) : Bool :=
  charsContain name.toList "lag_".toList

/-- The indices of the lag-feature columns. -/
def lag_col_idxs (header : List String) : List ℕ :=
  (List.range header.length).filter (fun j =>
    match header[j]? with
    | some name => contains_lag_marker name
    | none => false)

/-- `dropna(subset=lag_cols)` keeps a row iff every lag cell is non-null. -/
def row_has_complete_lags (lagIdxs : List ℕ) (r : List (Option ℚ)) : Bool :=
  lagIdxs.all (fun j => (r[j]?.join).isSome)

/-- The rows surviving step (a) of `clean_data`. -/
def kept_rows (cfg : CleanConfig) (f : DFrame) : List (List (Option ℚ)) :=
  if cfg.remove_rows_with_missing_lags then
    f.rows.filter (row_has_complete_lags (lag_col_idxs f.header))
  else f.rows

/-- Column `j` of a list of rows. -/
def column_of (rows : List (List (Option ℚ))) (j : ℕ) : List (Option ℚ) :=
  rows.map (fun r => r[j]?.join)

/-- The columns `clean_data` never imputes. -/
def excluded_impute_cols : List String :=
  ["measured_at", "created_at", "id", "station_id"]

/-- Pandas `Series.median()` of the non-null values: the middle element of
the sorted values (mean of the two middle elements on even length), NaN on an
empty series. -/
def list_median (vals : List ℚ) : Option ℚ :=
  let s := vals.insertionSort (· ≤ ·)
  if vals.length = 0 then none
  else if vals.length % 2 = 1 then s[vals.length / 2]?
  else
    match s[vals.length / 2 - 1]?, s[vals.length / 2]? with
    | some a, some b => some ((a + b) / 2)
    | _, _ => none

/-- The fill value for one column under a strategy: median, mean, or nothing
for an unknown strategy; NaN (none) on an all-null column. -/
def impute_fill (strategy : String) (vals : List ℚ) : Option ℚ :=
  if strategy = "median" then list_median vals
  else if strategy = "mean" then
    (if vals.length = 0 then none else some (vals.sum / (vals.length : ℚ)))
  else none

/-- `if df[col].isnull().any(): df[col] = df[col].fillna(fill)`: the nulls of
a column are replaced by the fill value when it exists; `fillna(NaN)` (an
all-null column) and an unknown strategy leave the column unchanged. -/
def impute_column (strategy : String) (col : List (Option ℚ)) :
    List (Option ℚ) :=
  if col.all Option.isSome then col
  else
    match impute_fill strategy (col.filterMap id) with
    | some v => col.map (fun c => match c with | none => some v | some x => some x)
    | none => col

/-- The columns of the frame after both cleaning steps: metadata columns are
passed through, every other column is imputed. -/
def cleaned_columns (cfg : CleanConfig) (f : DFrame) : List (List (Option ℚ)) :=
  (List.range f.header.length).map (fun j =>
    if excluded_impute_cols.contains (f.header[j]?.getD "") then
      column_of (kept_rows cfg f) j
    else
      impute_column cfg.missing_value_strategy (column_of (kept_rows cfg f) j))

/-- `clean_data`: drop rows with incomplete lags, then impute the remaining
columns except the metadata columns (the rows are rebuilt from the imputed
columns). -/
def clean_data (cfg : CleanConfig) (f : DFrame) : DFrame :=
  ⟨f.header,
    (List.range (kept_rows cfg f).length).map
      (fun i => (cleaned_columns cfg f).map (fun col => col[i]?.join))⟩

/-! ## Missing-column behaviour of the transforms

`apply_time_features` (lines 308-325) starts with `df['measured_at'].dt.hour`
and `apply_lag_features` (single-station path, lines 206-217) starts with
`df.sort_values('measured_at')` followed by `df['water_level'].shift(...)`
inside the lag loop: a frame lacking those columns raises a KeyError.  Only
`apply_rainfall_features` (lines 329-330) and `apply_weather_interactions`
(lines 352-360) guard on column presence and fall through unchanged. -/

/-- A timestamp as the code consumes it: absolute minutes (for ordering and
diffs) together with the fields the pandas `.dt` accessor extracts. -/
structure Ts where
  minutes : ℚ
  hour : ℕ
  dayofweek : ℕ
  day : ℕ
  month : ℕ
deriving DecidableEq

/-- A cell of an engineered time column: a number, or the symbolic sine or
cosine of 2π times a rational argument (the cyclical encodings; the
transcendental value itself is never inspected downstream). -/
inductive Cell where
  | num (q : ℚ)
  | sin2pi (q : ℚ)
  | cos2pi (q : ℚ)
deriving DecidableEq

/-- A single-station frame as the transforms see it: each input column is
either absent (`none`, the frame has no such key) or a list of values; the
columns a transform adds are collected in `time_cols` and `added`.  The
frame is already sorted by `measured_at` (as `get_station_data` returns it),
so the re-sort inside the transforms is the identity. -/
structure PFrame where
  nrows : ℕ
  measured_at : Option (List Ts)
  water_level : Option (List ℚ)
  rainfall_1h : Option (List ℚ)
  temperature : Option (List ℚ)
  humidity : Option (List ℚ)
  pressure : Option (List ℚ)
  time_cols : List (String × List Cell)
  added : List (String × List (Option ℚ))
deriving DecidableEq

/-- The `time_features` configuration: `hour_cycle` (default 24) and
`month_cycle` (default 12). -/
structure TimeConfig where
  hour_cycle : ℚ
  month_cycle : ℚ
deriving DecidableEq

/-- `apply_time_features`: reads `df['measured_at']` immediately (KeyError
when the column is absent) and adds the time and cyclical-encoding
columns. -/
def apply_time_features (cfg : TimeConfig) (f : PFrame) :
    Except String PFrame :=
  match f.measured_at with
  | none => .error "KeyError: measured_at"
  | some ts => .ok { f with time_cols := f.time_cols ++
      [("hour", ts.map (fun t => Cell.num t.hour)),
       ("day_of_week", ts.map (fun t => Cell.num t.dayofweek)),
       ("day_of_month", ts.map (fun t => Cell.num t.day)),
       ("month", ts.map (fun t => Cell.num t.month)),
       ("is_weekend",
         ts.map (fun t => Cell.num (if 5 ≤ t.dayofweek then 1 else 0))),
       ("hour_sin",
         ts.map (fun t => Cell.sin2pi ((t.hour : ℚ) / cfg.hour_cycle))),
       ("hour_cos",
         ts.map (fun t => Cell.cos2pi ((t.hour : ℚ) / cfg.hour_cycle))),
       ("month_sin",
         ts.map (fun t => Cell.sin2pi (((t.month : ℚ) - 1) / cfg.month_cycle))),
       ("month_cos",
         ts.map (fun t => Cell.cos2pi (((t.month : ℚ) - 1) / cfg.month_cycle)))] }

/-- The f-string name of a lag column. -/
def lag_feature_name (lag : ℚ) : String :=
  "water_level_lag_" ++ toString lag ++ "h"

/-- `apply_lag_features`, single-station path: unchanged on frames with at
most one row; otherwise it sorts by `measured_at` (KeyError when absent) and,
for a nonempty lag set, reads `df['water_level']` (KeyError when absent) and
adds one lag column per configured lag. -/
def apply_lag_features (lag_periods : List ℚ) (f : PFrame) :
    Except String PFrame :=
  if f.nrows ≤ 1 then .ok f
  else
    match f.measured_at with
    | none => .error "KeyError: measured_at"
    | some ts =>
      if lag_periods.isEmpty then .ok f
      else
        match f.water_level with
        | none => .error "KeyError: water_level"
        | some wl =>
          .ok { f with
                added := f.added ++ lag_periods.map (fun lag =>
                  (lag_feature_name lag,
                    lag_column lag (ts.map Ts.minutes) wl)) }

/-- `rolling(window=w, min_periods=minp).sum()` (raw row windows, not
interval-scaled, as the rainfall transform uses). -/
def rolling_sum (w minp : ℕ) (xs : List ℚ) : List (Option ℚ) :=
  (List.range xs.length).map (fun i =>
    if minp ≤ (rolling_window w xs i).length then
      some (rolling_window w xs i).sum
    else none)

/-- `apply_rainfall_features`: explicitly returns the frame unchanged when
'rainfall_1h' is absent; otherwise adds one cumulative-sum column per
window. -/
def apply_rainfall_features (windows : List ℕ) (f : PFrame) :
    Except String PFrame :=
  match f.rainfall_1h with
  | none => .ok f
  | some rain =>
    .ok { f with
          added := f.added ++ windows.map (fun w =>
            ("rainfall_sum_" ++ toString w ++ "h", rolling_sum w 1 rain)) }

/-- `Series.diff(k)`: x[t] − x[t−k], none for the first k rows. -/
def series_diff (k : ℕ) (xs : List ℚ) : List (Option ℚ) :=
  (List.range xs.length).map (fun t =>
    if t < k then none
    else xs[t]?.bind (fun a => (xs[t - k]?).map (fun b => a - b)))

/-- `apply_weather_interactions`: guarded by column-presence checks, never
raises; adds temperature*humidity/100 when both inputs exist and the 3-row
pressure difference when pressure exists. -/
def apply_weather_interactions (f : PFrame) : Except String PFrame :=
  .ok (
    let f1 :=
      match f.temperature, f.humidity with
      | some tc, some hc =>
        { f with
          added := f.added ++
            [("temp_humidity_interaction",
              List.zipWith (fun a b => some (a * b / 100)) tc hc)] }
      | _, _ => f
    match f1.pressure with
    | some pc =>
      { f1 with added := f1.added ++ [("pressure_diff_3h", series_diff 3 pc)] }
    | none => f1)

/-! ## Pipeline orchestration

`preprocess_data` (lines 436-496) applies the stages in a fixed textual
order, each under a guard on the supplied config map:

  time features    — `configs.get('time_features', {}).get('enabled', True)
                      if isinstance(configs.get('time_features'), dict)
                      else 'time_features' in configs`
  every other step — `'<key>' in configs`

so only the time-features stage consults an `enabled` flag; every other
stage runs whenever its key is present, enabled or not. -/

/-- A config value: a dict (whose `enabled` key may be absent) or any
non-dict value. -/
inductive ConfigEntry where
  | dict (enabled : Option Bool)
  | nondict
deriving DecidableEq

/-- A caller-supplied config map. -/
def ConfigMap : Type := List (String × ConfigEntry)

/-- `configs.get(key)`. -/
def config_lookup (cs : ConfigMap) (key : String) : Option ConfigEntry :=
  ((cs : List (String × ConfigEntry)).find? (fun kv => kv.1 == key)).map
    (fun kv => kv.2)

/-- The line-466 guard of the time-features stage. -/
def time_features_condition (cs : ConfigMap) : Bool :=
  match config_lookup cs "time_features" with
  | some (ConfigEntry.dict e) => e.getD true
  | some ConfigEntry.nondict => true
  | none => false

/-- The fixed textual order of the stages in `preprocess_data`. -/
def stage_order : List String :=
  ["time_features", "lag_features", "rolling_statistics", "rate_of_change",
   "rainfall_features", "weather_interactions", "station_statistics",
   "target_creation", "data_cleaning"]

/-- Whether `preprocess_data` applies a stage under a given config map. -/
def stage_applied (cs : ConfigMap) (stage : String) : Bool :=
  if stage == "time_features" then time_features_condition cs
  else (config_lookup cs stage).isSome

/-- The sequence of stage applications `preprocess_data` performs, read
directly off its if-chain (lines 465-496). -/
def preprocess_stage_trace (cs : ConfigMap) : List String :=
  (if time_features_condition cs then ["time_features"] else []) ++
  ((if (config_lookup cs "lag_features").isSome then ["lag_features"]
    else []) ++
  ((if (config_lookup cs "rolling_statistics").isSome
    then ["rolling_statistics"] else []) ++
  ((if (config_lookup cs "rate_of_change").isSome then ["rate_of_change"]
    else []) ++
  ((if (config_lookup cs "rainfall_features").isSome
    then ["rainfall_features"] else []) ++
  ((if (config_lookup cs "weather_interactions").isSome
    then ["weather_interactions"] else []) ++
  ((if (config_lookup cs "station_statistics").isSome
    then ["station_statistics"] else []) ++
  ((if (config_lookup cs "target_creation").isSome then ["target_creation"]
    else []) ++
  (if (config_lookup cs "data_cleaning").isSome then ["data_cleaning"]
    else []))))))))

/-! ## Proofs -/

theorem minQ_isSome {l : List ℚ} (h : l ≠ []) : (minQ l).isSome := by
  cases l with
  | nil => exact absurd rfl h
  | cons x xs =>
    simp only [minQ]
    cases minQ xs <;> simp

theorem minQ_mem : ∀ {l : List ℚ} {m : ℚ}, minQ l = some m → m ∈ l := by
  intro l
  induction l with
  | nil => intro m h; simp [minQ] at h
  | cons x xs ih =>
    intro m h
    simp only [minQ] at h
    cases hxs : minQ xs with
    | none =>
      rw [hxs] at h
      have h2 : x = m := Option.some.inj h
      subst h2
      simp
    | some m' =>
      rw [hxs] at h
      have h2 : min x m' = m := Option.some.inj h
      rcases min_cases x m' with ⟨hmin, _⟩ | ⟨hmin, _⟩ <;> rw [← h2, hmin]
      · simp
      · exact List.mem_cons_of_mem _ (ih hxs)

theorem minQ_le : ∀ {l : List ℚ} {m : ℚ}, minQ l = some m → ∀ y ∈ l, m ≤ y := by
  intro l
  induction l with
  | nil => intro m h; simp [minQ] at h
  | cons x xs ih =>
    intro m h y hy
    simp only [minQ] at h
    cases hxs : minQ xs with
    | none =>
      rw [hxs] at h
      have h2 : x = m := Option.some.inj h
      subst h2
      cases xs with
      | nil =>
        simp at hy
        simp [hy]
      | cons a as =>
        simp only [minQ] at hxs
        rcases hq : minQ as with _ | v <;> rw [hq] at hxs <;>
          exact Option.noConfusion hxs
    | some m' =>
      rw [hxs] at h
      have h2 : min x m' = m := Option.some.inj h
      rw [← h2]
      rcases List.mem_cons.mp hy with hy' | hy'
      · rw [hy']
        exact min_le_left x m'
      · exact le_trans (min_le_right x m') (ih hxs y hy')

theorem exists_max_count (l : List ℚ) (h : l ≠ []) :
    ∃ x ∈ l, ∀ y ∈ l, l.count y ≤ l.count x := by
  cases hm : l.argmax (fun x => l.count x) with
  | none => exact absurd (List.argmax_eq_none.mp hm) h
  | some m =>
    refine ⟨m, List.argmax_mem hm, fun y hy => ?_⟩
    exact List.le_of_mem_argmax hy hm

theorem modeCandidates_sound {l : List ℚ} {x : ℚ} (hx : x ∈ modeCandidates l) :
    x ∈ l ∧ ∀ y ∈ l, l.count y ≤ l.count x := by
  simp only [modeCandidates, List.mem_filter, List.all_eq_true,
    decide_eq_true_eq] at hx
  exact hx

theorem modeCandidates_ne_nil {l : List ℚ} (h : l ≠ []) :
    modeCandidates l ≠ [] := by
  obtain ⟨x, hxmem, hxmax⟩ := exists_max_count l h
  intro hnil
  have : x ∈ modeCandidates l := by
    simp only [modeCandidates, List.mem_filter, List.all_eq_true,
      decide_eq_true_eq]
    exact ⟨hxmem, hxmax⟩
  rw [hnil] at this
  simp at this

theorem timeDiffs_eq_nil_iff (ts : List ℚ) : timeDiffs ts = [] ↔ ts.length ≤ 1 := by
  cases ts with
  | nil => simp [timeDiffs]
  | cons a tl =>
    cases tl with
    | nil => simp [timeDiffs]
    | cons b r => simp [timeDiffs]

theorem pandasMode_spec {l : List ℚ} (h : l ≠ []) :
    ∃ m, pandasMode l = some m ∧ m ∈ l ∧ (∀ y ∈ l, l.count y ≤ l.count m) ∧
      ∀ y ∈ modeCandidates l, m ≤ y := by
  have hne := modeCandidates_ne_nil h
  obtain ⟨m, hm⟩ := Option.isSome_iff_exists.mp (minQ_isSome hne)
  have hmem := minQ_mem hm
  obtain ⟨hml, hmax⟩ := modeCandidates_sound hmem
  exact ⟨m, hm, hml, hmax, minQ_le hm⟩

/-- Claim C7 (amended): the interval estimator computes the consecutive
timestamp deltas of the station's time-ordered series and uses
`periods_per_hour = 60 / mode_interval`, where `mode_interval` is a delta of
maximal multiplicity (smallest such value on a tie, as pandas
`Series.mode().values[0]` returns the modes sorted ascending).  The 30-minute
fallback is taken exactly when there is no delta at all, i.e. with fewer than
2 points; with two or more points and no repeated delta there is still a mode
(every delta occurs once), so the smallest delta is used — not the 30-minute
default the claim states. -/
theorem C7_interval_estimator (ts : List ℚ) :
    periods_per_hour (timeDiffs ts) = 60 / mode_interval (timeDiffs ts) ∧
    (timeDiffs ts = [] ↔ ts.length ≤ 1) ∧
    (ts.length ≤ 1 → mode_interval (timeDiffs ts) = 30) ∧
    (2 ≤ ts.length →
      mode_interval (timeDiffs ts) ∈ timeDiffs ts ∧
      (∀ y ∈ timeDiffs ts,
        (timeDiffs ts).count y ≤ (timeDiffs ts).count (mode_interval (timeDiffs ts))) ∧
      ∀ y ∈ modeCandidates (timeDiffs ts), mode_interval (timeDiffs ts) ≤ y) := by
  refine ⟨rfl, timeDiffs_eq_nil_iff ts, ?_, ?_⟩
  · intro hlen
    have hnil : timeDiffs ts = [] := (timeDiffs_eq_nil_iff ts).mpr hlen
    rw [hnil]
    rfl
  · intro hlen
    have hne : timeDiffs ts ≠ [] := by
      rw [Ne, timeDiffs_eq_nil_iff]
      omega
    obtain ⟨m, hm, hml, hmax, hmin⟩ := pandasMode_spec hne
    have hmi : mode_interval (timeDiffs ts) = m := by
      simp [mode_interval, hm]
    rw [hmi]
    exact ⟨hml, hmax, hmin⟩

/-- Claim C7 counterexample: three points with deltas 10 and 20 minutes have
no repeated delta, yet the detected interval is 10 minutes (the smallest
once-occurring delta), not the 30-minute default the claim requires, so
`periods_per_hour` is 6, not 2. -/
theorem C7_counterexample :
    timeDiffs [(0 : ℚ), 10, 30] = [10, 20] ∧
    (timeDiffs [(0 : ℚ), 10, 30]).count 10 = 1 ∧
    (timeDiffs [(0 : ℚ), 10, 30]).count 20 = 1 ∧
    mode_interval (timeDiffs [(0 : ℚ), 10, 30]) = 10 ∧
    mode_interval (timeDiffs [(0 : ℚ), 10, 30]) ≠ 30 ∧
    periods_per_hour (timeDiffs [(0 : ℚ), 10, 30]) = 6 ∧
    periods_per_hour (timeDiffs [(0 : ℚ), 10, 30]) ≠ 2 := by
  have hd : timeDiffs [(0 : ℚ), 10, 30] = [10, 20] := by norm_num [timeDiffs]
  have hm : mode_interval [(10 : ℚ), 20] = 10 := by decide
  have hp : periods_per_hour [(10 : ℚ), 20] = 6 := by
    rw [periods_per_hour, hm]
    norm_num
  rw [hd, hm, hp]
  refine ⟨rfl, by decide, by decide, rfl, by norm_num, rfl, by norm_num⟩

/-- Witness for C7 on a concrete series: 15-minute spacing with one
45-minute gap; the detected interval is a mode of the deltas. -/
theorem C7_witness :
    mode_interval (timeDiffs [(0 : ℚ), 15, 30, 75, 90]) ∈
      timeDiffs [(0 : ℚ), 15, 30, 75, 90] :=
  ((C7_interval_estimator [0, 15, 30, 75, 90]).2.2.2 (by decide)).1

theorem pandasShift_getElem? (k : ℕ) (xs : List ℚ) (t : ℕ) (ht : t < xs.length) :
    (pandasShift k xs)[t]? = some (if t < k then none else xs[t - k]?) := by
  unfold pandasShift
  by_cases htk : t < min k xs.length
  · rw [List.getElem?_append_left (by simpa using htk)]
    rw [List.getElem?_replicate, if_pos htk, if_pos (by omega)]
  · have hk : k ≤ t := by omega
    have hlen : (List.replicate (min k xs.length) (none : Option ℚ)).length ≤ t := by
      simp only [List.length_replicate]
      omega
    rw [List.getElem?_append_right hlen]
    simp only [List.length_replicate]
    have hmin : min k xs.length = k := by omega
    rw [hmin, List.getElem?_map, List.getElem?_take, if_pos (by omega),
      if_neg (by omega)]
    rw [List.getElem?_eq_getElem (show t - k < xs.length by omega)]
    rfl

theorem pandasShiftNeg_getElem? (k : ℕ) (xs : List ℚ) (t : ℕ) (ht : t < xs.length) :
    (pandasShiftNeg k xs)[t]? = some xs[t + k]? := by
  unfold pandasShiftNeg
  by_cases h : t < xs.length - k
  · rw [List.getElem?_append_left (by simpa using h)]
    rw [List.getElem?_map, List.getElem?_drop]
    rw [Nat.add_comm t k]
    rw [List.getElem?_eq_getElem (show k + t < xs.length by omega)]
    rfl
  · have hlen : ((xs.drop k).map some).length ≤ t := by
      simpa using h
    rw [List.getElem?_append_right hlen]
    simp only [List.length_map, List.length_drop]
    rw [List.getElem?_replicate, if_pos (by omega)]
    rw [List.getElem?_eq_none (show xs.length ≤ t + k by omega)]

/-- Claim C1 (amended): for every station group and configured lag of ℓ hours,
`water_level_lag_{ℓ}h` at row `t` equals the station's own `water_level` at
row `t − int(ℓ·periods_per_hour)` — Python `int()` truncation of the product,
not `round()` — and is null for the first `int(ℓ·periods_per_hour)` rows of
the group, where `periods_per_hour` comes from that station's detected
interval. -/
theorem C1_lag_feature (lag : ℚ) (ts wl : List ℚ) (t : ℕ) (ht : t < wl.length) :
    (lag_column lag ts wl)[t]? =
      some (if t < shift_periods lag ts then none
            else wl[t - shift_periods lag ts]?) ∧
    shift_periods lag ts = (⌊lag * periods_per_hour (timeDiffs ts)⌋).toNat :=
  ⟨pandasShift_getElem? _ wl t ht, rfl⟩

/-- Witness for C1: a 30-minute station (periods_per_hour = 2), lag 1h, row 2:
the lag column holds the water level from 2 rows earlier. -/
theorem C1_witness :
    (2 : ℕ) < ([(5 : ℚ), 6, 7] : List ℚ).length ∧
    (lag_column 1 [(0 : ℚ), 30, 60] [5, 6, 7])[2]? =
      some (if 2 < shift_periods 1 [(0 : ℚ), 30, 60] then none
            else ([(5 : ℚ), 6, 7] : List ℚ)[2 - shift_periods 1 [(0 : ℚ), 30, 60]]?) :=
  ⟨by decide, (C1_lag_feature 1 [0, 30, 60] [5, 6, 7] 2 (by decide)).1⟩

/-- Claim C1 counterexample: a station reporting every 45 minutes has
`periods_per_hour = 4/3`; for the 2-hour lag the code shifts by
`int(2·4/3) = int(8/3) = 2` rows while the claim's `round(2·4/3) = 3`.  At
row 3 the lag column holds the water level of row 1 (value 20), not the
claimed water level of row `3 − 3 = 0` (value 10). -/
theorem C1_counterexample :
    shift_periods 2 [(0 : ℚ), 45, 90, 135, 180] = 2 ∧
    round ((2 : ℚ) * periods_per_hour (timeDiffs [(0 : ℚ), 45, 90, 135, 180])) = 3 ∧
    lag_column 2 [(0 : ℚ), 45, 90, 135, 180] [10, 20, 30, 40, 50] =
      [none, none, some 10, some 20, some 30] ∧
    (lag_column 2 [(0 : ℚ), 45, 90, 135, 180] [10, 20, 30, 40, 50])[3]? ≠
      some (([(10 : ℚ), 20, 30, 40, 50] : List ℚ)[(3 : ℕ) - 3]?) := by
  have hd : timeDiffs [(0 : ℚ), 45, 90, 135, 180] = [45, 45, 45, 45] := by
    norm_num [timeDiffs]
  have hm : mode_interval [(45 : ℚ), 45, 45, 45] = 45 := by decide
  have hp : periods_per_hour (timeDiffs [(0 : ℚ), 45, 90, 135, 180]) = 4 / 3 := by
    rw [hd, periods_per_hour, hm]
    norm_num
  have hs : shift_periods 2 [(0 : ℚ), 45, 90, 135, 180] = 2 := by
    rw [shift_periods, hp]
    have hfl : ⌊(2 : ℚ) * (4 / 3)⌋ = 2 := by norm_num
    rw [hfl]
    rfl
  have hcol : lag_column 2 [(0 : ℚ), 45, 90, 135, 180] [10, 20, 30, 40, 50] =
      [none, none, some 10, some 20, some 30] := by
    rw [lag_column, hs]
    decide
  refine ⟨hs, ?_, hcol, ?_⟩
  · rw [hp]
    rw [show ((2 : ℚ) * (4 / 3)) = 8 / 3 by norm_num]
    rw [round_eq]
    norm_num
  · rw [hcol]
    decide

/-- Claim C2 (confirmed): for every horizon `h`, `target_{h}min` at row `t`
equals `water_level` at row `t + (h // 15)` within the same station group
(fixed 15-minute base grid), and is null when that future row does not
exist. -/
theorem C2_target_column (horizon : ℕ) (wl : List ℚ) (t : ℕ) (ht : t < wl.length) :
    (target_column horizon wl)[t]? = some wl[t + horizon / data_interval_minutes]? ∧
    (t + horizon / data_interval_minutes < wl.length →
      (wl[t + horizon / data_interval_minutes]?).isSome) ∧
    (wl.length ≤ t + horizon / data_interval_minutes →
      wl[t + horizon / data_interval_minutes]? = none) := by
  refine ⟨pandasShiftNeg_getElem? _ wl t ht, fun h => ?_,
    fun h => List.getElem?_eq_none h⟩
  rw [List.getElem?_eq_getElem h]
  rfl

/-- Witness for C2: horizon 30 minutes is 2 rows on the 15-minute grid; at
row 1 of a 4-row group the target is the water level of row 3. -/
theorem C2_witness :
    (1 : ℕ) < ([(1 : ℚ), 2, 3, 4] : List ℚ).length ∧
    (target_column 30 [(1 : ℚ), 2, 3, 4])[1]? =
      some (([(1 : ℚ), 2, 3, 4] : List ℚ)[1 + 30 / data_interval_minutes]?) :=
  ⟨by decide, (C2_target_column 30 [1, 2, 3, 4] 1 (by decide)).1⟩

/-- Claim C3 (confirmed): excluded station rows (IDs 1 and 7) never appear in
the rows of an output FeatureTable (for any input and any cleaning
predicate), and a request naming an excluded station is rejected with a hard
error by `get_station_data` and by the /generate-forecasts guard before any
feature computation. -/
theorem C3_station_exclusion (sid : Option ℤ) (rows : List SRow)
    (keep : SRow → Bool) :
    (∀ out, feature_table_rows sid rows keep = Except.ok out →
      ∀ r ∈ out, r.station_id ∉ excluded_station_ids) ∧
    (∀ s ∈ excluded_station_ids,
      isError (feature_table_rows (some s) rows keep) = true ∧
      isError (generate_forecasts_guard (some s)) = true) := by
  constructor
  · intro out hout r hr
    cases sid with
    | none =>
      simp only [feature_table_rows, get_station_data, Except.ok.injEq] at hout
      subst hout
      have h1 := (List.mem_filter.mp hr).1
      have h2 := (List.mem_filter.mp h1).2
      simpa using h2
    | some s =>
      by_cases hex : excluded_station_ids.contains s = true
      · simp only [feature_table_rows, get_station_data] at hout
        rw [if_pos hex] at hout
        simp at hout
      · simp only [feature_table_rows, get_station_data] at hout
        rw [if_neg hex] at hout
        simp only [Except.ok.injEq] at hout
        subst hout
        have h1 := (List.mem_filter.mp hr).1
        have h2 := (List.mem_filter.mp h1).1
        have h3 := (List.mem_filter.mp h2).2
        simpa using h3
  · intro s hs
    fin_cases hs
    · exact ⟨by simp [feature_table_rows, get_station_data, isError,
        excluded_station_ids],
        by simp [generate_forecasts_guard, isError, excluded_station_ids]⟩
    · exact ⟨by simp [feature_table_rows, get_station_data, isError,
        excluded_station_ids],
        by simp [generate_forecasts_guard, isError, excluded_station_ids]⟩

/-- Witness for C3 at a concrete input: stations 1, 2 and 7 in the raw data,
no per-station filter, trivial cleaning predicate; the output keeps only
station 2, and requesting station 7 errors in both places. -/
theorem C3_witness :
    (∀ r ∈ [SRow.mk 2 6], r.station_id ∉ excluded_station_ids) ∧
    (isError (feature_table_rows (some 7) [⟨1, 5⟩, ⟨2, 6⟩, ⟨7, 4⟩]
        (fun _ => true)) = true ∧
      isError (generate_forecasts_guard (some 7)) = true) :=
  ⟨fun r hr =>
    (C3_station_exclusion none [⟨1, 5⟩, ⟨2, 6⟩, ⟨7, 4⟩] (fun _ => true)).1
      [⟨2, 6⟩] (by rfl) r hr,
    (C3_station_exclusion (some 7) [⟨1, 5⟩, ⟨2, 6⟩, ⟨7, 4⟩] (fun _ => true)).2
      7 (by decide)⟩

/-- Claim C4 (confirmed): with horizons [15, 30], a resolvable model for
each, and initial water_level 500, if the 15-minute model predicts 495 then
the feature vector fed to the 30-minute model has `water_level` (and the
shortest lag feature `water_level_lag_1h`) overwritten to 495, not 500. -/
theorem C4_recursive_update (f g : FeatureVec → ℚ) (x : FeatureVec)
    (hwl : x.water_level = 500) (hf : f x = 495) :
    recursive_forecasts
        (fun h => if h = 15 then some f else if h = 30 then some g else none)
        [15, 30] x none =
      [(15, 495),
       (30, g { x with water_level := 495, water_level_lag_1h := 495 })] ∧
    ({ x with water_level := 495, water_level_lag_1h := 495 } :
        FeatureVec).water_level = 495 ∧
    ({ x with water_level := 495, water_level_lag_1h := 495 } :
        FeatureVec).water_level ≠ x.water_level := by
  refine ⟨?_, rfl, by rw [hwl]; norm_num⟩
  simp [recursive_forecasts, update_with_previous, hf]

/-- Witness for C4: concrete models (the 15-minute model constantly predicts
495, the 30-minute model echoes its input `water_level`), showing the second
forecast is 495, i.e. computed from the updated vector. -/
theorem C4_witness :
    recursive_forecasts
        (fun h => if h = 15 then some (fun _ => (495 : ℚ))
                  else if h = 30 then some (fun v => v.water_level) else none)
        [15, 30] ⟨3, 500, 500⟩ none =
      [(15, 495), (30, 495)] := by
  have h := C4_recursive_update (fun _ => (495 : ℚ)) (fun v => v.water_level)
      ⟨3, 500, 500⟩ rfl rfl
  rw [h.1]

theorem rolling_window_length (w : ℕ) (xs : List ℚ) (i : ℕ) (hi : i < xs.length) :
    (rolling_window w xs i).length = min (i + 1) w := by
  simp only [rolling_window, List.length_drop, List.length_take]
  omega

theorem rolling_mean_getElem? (w minp : ℕ) (xs : List ℚ) (i : ℕ)
    (hi : i < xs.length) :
    (rolling_mean w minp xs)[i]? =
      some (if minp ≤ (rolling_window w xs i).length then
        some (list_mean (rolling_window w xs i)) else none) := by
  rw [rolling_mean, List.getElem?_map]
  rw [List.getElem?_range hi]
  rfl

theorem rolling_std_sq_getElem? (w minp : ℕ) (xs : List ℚ) (i : ℕ)
    (hi : i < xs.length) :
    (rolling_std_sq w minp xs)[i]? =
      some (if minp ≤ (rolling_window w xs i).length then
        sample_variance (rolling_window w xs i) else none) := by
  rw [rolling_std_sq, List.getElem?_map]
  rw [List.getElem?_range hi]
  rfl

/-- Claim C8 (amended): with min_periods = 1, the rolling mean is non-null at
every row index of a station's series, but the rolling std is non-null
exactly at rows whose trailing window holds at least 2 observations — it is
null at row 0 (and everywhere when the window is a single row), because the
sample standard deviation of one observation is NaN even though
min_periods = 1 admits the window. -/
theorem C8_rolling_statistics (w : ℕ) (xs : List ℚ) (i : ℕ)
    (hw : 1 ≤ w) (hi : i < xs.length) :
    (rolling_mean w 1 xs)[i]? = some (some (list_mean (rolling_window w xs i))) ∧
    (rolling_std_sq w 1 xs)[i]? = some (sample_variance (rolling_window w xs i)) ∧
    ((sample_variance (rolling_window w xs i)).isSome ↔ 2 ≤ min (i + 1) w) := by
  have hlen := rolling_window_length w xs i hi
  have hminp : 1 ≤ (rolling_window w xs i).length := by omega
  refine ⟨?_, ?_, ?_⟩
  · rw [rolling_mean_getElem? w 1 xs i hi, if_pos hminp]
  · rw [rolling_std_sq_getElem? w 1 xs i hi, if_pos hminp]
  · rw [sample_variance]
    split
    · simp only [Option.isSome_some, true_iff]
      omega
    · simp only [Option.isSome_none, Bool.false_eq_true, false_iff]
      omega

/-- Witness for C8: series [5, 6] with window 2; at row 1 the mean and the
(squared) std are both produced and the window holds 2 observations. -/
theorem C8_witness :
    (rolling_mean 2 1 [(5 : ℚ), 6])[1]? =
        some (some (list_mean (rolling_window 2 [(5 : ℚ), 6] 1))) ∧
    (rolling_std_sq 2 1 [(5 : ℚ), 6])[1]? =
        some (sample_variance (rolling_window 2 [(5 : ℚ), 6] 1)) ∧
    ((sample_variance (rolling_window 2 [(5 : ℚ), 6] 1)).isSome ↔
        2 ≤ min (1 + 1) 2) :=
  C8_rolling_statistics 2 [5, 6] 1 (by decide) (by decide)

/-- Claim C8 counterexample: series [5, 6], window 2, min_periods = 1.  At
row 0 the rolling mean is 5 but the rolling std is NaN (sample std of a
single observation), refuting "a non-null rolling std at every row
index ≥ 0". -/
theorem C8_counterexample :
    (rolling_mean 2 1 [(5 : ℚ), 6])[0]? = some (some 5) ∧
    (rolling_std_sq 2 1 [(5 : ℚ), 6])[0]? = some none := by
  have hm := rolling_mean_getElem? 2 1 [(5 : ℚ), 6] 0 (by decide)
  have hs := rolling_std_sq_getElem? 2 1 [(5 : ℚ), 6] 0 (by decide)
  have hw : rolling_window 2 [(5 : ℚ), 6] 0 = [5] := by decide
  rw [hw] at hm hs
  constructor
  · rw [hm]
    norm_num [list_mean]
  · rw [hs]
    decide

/-- Claim C9 (amended): when the latest row's value of a feature is null, the
preparer fills it with the historical mean of that feature's column over the
preparation window whenever at least one value of the column is non-null;
when the column is entirely null (its mean is NaN) it falls back to the
hard-coded constant 0. -/
theorem C9_fill_latest (col : List (Option ℚ)) (h : col.getLast? = some none) :
    fill_latest_feature col = some ((column_mean col).getD 0) ∧
    ((column_mean col).isSome ↔ (col.filterMap id).length ≠ 0) := by
  constructor
  · simp only [fill_latest_feature, h]
    cases hcm : column_mean col <;> simp [hcm]
  · rw [column_mean]
    split
    · next hzero => simp [hzero]
    · next hzero => simp [hzero]

/-- Witness for C9: column [some 4, none]; the null latest value is filled
with the column mean. -/
theorem C9_witness :
    fill_latest_feature [some 4, none] =
        some ((column_mean [some 4, none]).getD 0) ∧
    ((column_mean [some 4, none]).isSome ↔
        (([some (4 : ℚ), none] : List (Option ℚ)).filterMap id).length ≠ 0) :=
  C9_fill_latest [some 4, none] (by decide)

/-- Claim C9 counterexample: a feature column that is entirely null over the
preparation window; the preparer succeeds and fills the latest row's value
with the hard-coded constant 0, while the historical column mean does not
exist — refuting "the value filled in is the historical mean … never a
hard-coded constant". -/
theorem C9_counterexample :
    fill_latest_feature [none, none] = some 0 ∧
    column_mean [none, none] = none := by
  constructor <;> decide

theorem impute_column_length (strategy : String) (col : List (Option ℚ)) :
    (impute_column strategy col).length = col.length := by
  rw [impute_column]
  split
  · rfl
  · split
    · simp
    · rfl

theorem column_of_length (rows : List (List (Option ℚ))) (j : ℕ) :
    (column_of rows j).length = rows.length := by
  simp [column_of]

theorem range_map_getElem?_join (col : List (Option ℚ)) :
    (List.range col.length).map (fun i => col[i]?.join) = col := by
  apply List.ext_getElem?
  intro n
  rw [List.getElem?_map]
  by_cases hn : n < col.length
  · rw [List.getElem?_range hn]
    simp [List.getElem?_eq_getElem hn]
  · have h1 : (List.range col.length)[n]? = none := by
      rw [List.getElem?_eq_none]
      simpa using Nat.le_of_not_lt hn
    rw [h1, List.getElem?_eq_none (Nat.le_of_not_lt hn)]
    rfl

theorem clean_data_column (cfg : CleanConfig) (f : DFrame) (j : ℕ)
    (hj : j < f.header.length)
    (hexcl : excluded_impute_cols.contains (f.header[j]?.getD "") = false) :
    column_of (clean_data cfg f).rows j =
      impute_column cfg.missing_value_strategy
        (column_of (kept_rows cfg f) j) := by
  have hlen : (impute_column cfg.missing_value_strategy
      (column_of (kept_rows cfg f) j)).length = (kept_rows cfg f).length := by
    rw [impute_column_length, column_of_length]
  have hcols : (cleaned_columns cfg f)[j]? =
      some (impute_column cfg.missing_value_strategy
        (column_of (kept_rows cfg f) j)) := by
    rw [cleaned_columns, List.getElem?_map, List.getElem?_range hj]
    simp only [Option.map_some']
    rw [if_neg (by intro hc; rw [hexcl] at hc; exact Bool.false_ne_true hc)]
  rw [clean_data, column_of, List.map_map]
  have hfun : ∀ i ∈ List.range (kept_rows cfg f).length,
      ((fun r => r[j]?.join) ∘
        (fun i => (cleaned_columns cfg f).map (fun col => col[i]?.join))) i =
      (fun i => (impute_column cfg.missing_value_strategy
        (column_of (kept_rows cfg f) j))[i]?.join) i := by
    intro i _
    simp only [Function.comp]
    rw [List.getElem?_map, hcols]
    rfl
  rw [List.map_congr_left hfun]
  rw [← hlen]
  exact range_map_getElem?_join _

theorem list_median_isSome {vals : List ℚ} (h : vals.length ≠ 0) :
    (list_median vals).isSome := by
  rw [list_median]
  have hs : (vals.insertionSort (· ≤ ·)).length = vals.length :=
    List.length_insertionSort _ _
  rw [if_neg h]
  by_cases hodd : vals.length % 2 = 1
  · rw [if_pos hodd]
    rw [List.getElem?_eq_getElem (by omega : vals.length / 2 <
      (vals.insertionSort (· ≤ ·)).length)]
    rfl
  · rw [if_neg hodd]
    have h2 : 2 ≤ vals.length := by omega
    rw [List.getElem?_eq_getElem (by omega : vals.length / 2 - 1 <
      (vals.insertionSort (· ≤ ·)).length)]
    rw [List.getElem?_eq_getElem (by omega : vals.length / 2 <
      (vals.insertionSort (· ≤ ·)).length)]
    rfl

theorem impute_column_isSome (col : List (Option ℚ))
    (hne : (col.filterMap id).length ≠ 0) :
    ∀ v ∈ impute_column "median" col, v.isSome := by
  intro v hv
  rw [impute_column] at hv
  split at hv
  · next hall =>
    have := List.all_eq_true.mp hall v hv
    simpa using this
  · have hm : (list_median (col.filterMap id)).isSome := list_median_isSome hne
    obtain ⟨m, hm2⟩ := Option.isSome_iff_exists.mp hm
    have hfill : impute_fill "median" (col.filterMap id) = some m := by
      simp [impute_fill, hm2]
    rw [hfill] at hv
    simp only [List.mem_map] at hv
    obtain ⟨c, _, hc⟩ := hv
    cases c <;> rw [← hc] <;> rfl

/-- Claim C10 (amended): with the default cleaning config, the imputation
step of `clean_data` does apply to the target columns (they are numeric and
not in the metadata exclusion list): every null target is replaced by the
column's median computed over the cleaned frame whenever the column retains
at least one non-null value; but a target column that is entirely null after
the row-dropping step keeps its nulls (its median is NaN and `fillna(NaN)` is
a no-op), so null targets can survive into the returned FeatureTable in that
edge case. -/
theorem C10_clean_targets (f : DFrame) (j : ℕ) (name : String)
    (hj : f.header[j]? = some name)
    (hexcl : excluded_impute_cols.contains name = false)
    (hval : ∃ v ∈ column_of (kept_rows default_clean_config f) j, v.isSome) :
    ∀ v ∈ column_of (clean_data default_clean_config f).rows j, v.isSome := by
  have hjlen : j < f.header.length := by
    by_contra hcon
    rw [List.getElem?_eq_none (Nat.le_of_not_lt hcon)] at hj
    exact Option.noConfusion hj
  have hexcl2 : excluded_impute_cols.contains (f.header[j]?.getD "") = false := by
    rw [hj]
    exact hexcl
  rw [clean_data_column default_clean_config f j hjlen hexcl2]
  apply impute_column_isSome
  obtain ⟨v, hvmem, hvsome⟩ := hval
  obtain ⟨a, ha⟩ := Option.isSome_iff_exists.mp hvsome
  intro hzero
  have : a ∈ (column_of (kept_rows default_clean_config f) j).filterMap id := by
    rw [List.mem_filterMap]
    exact ⟨v, hvmem, by rw [ha]; rfl⟩
  rw [List.length_eq_zero.mp hzero] at this
  simp at this

/-- Witness for C10: a 2-row frame whose rows all keep their lags; the
target column [some 9, none] has a non-null value, so after cleaning it
contains no nulls. -/
theorem C10_witness :
    (column_of (clean_data default_clean_config
      ⟨["water_level_lag_1h", "target_15min"],
        [[some 1, some 9], [some 2, none]]⟩).rows 1).all Option.isSome = true := by
  rw [List.all_eq_true]
  intro v hv
  exact C10_clean_targets
    ⟨["water_level_lag_1h", "target_15min"],
      [[some 1, some 9], [some 2, none]]⟩ 1 "target_15min"
    (by decide) (by decide) ⟨some 9, by decide, by decide⟩ v hv

/-- Claim C10 counterexample: header [water_level_lag_1h, target_15min] with
rows [[null, 9], [1, null]].  The first row is dropped for its missing lag;
the surviving target column is entirely null, its median is NaN, and the null
survives cleaning — refuting "after cleaning, every target_{h}min column
contains no nulls". -/
theorem C10_counterexample :
    clean_data default_clean_config
        ⟨["water_level_lag_1h", "target_15min"],
          [[none, some 9], [some 1, none]]⟩ =
      ⟨["water_level_lag_1h", "target_15min"], [[some 1, none]]⟩ ∧
    column_of (clean_data default_clean_config
        ⟨["water_level_lag_1h", "target_15min"],
          [[none, some 9], [some 1, none]]⟩).rows 1 = [none] := by
  constructor <;> decide

/-- Claim C5 (amended): only the rainfall and weather-interaction transforms
silently no-op when their input columns are absent.  The time transform
raises a KeyError whenever `measured_at` is absent, and the lag transform —
on a frame with more than one row and a nonempty lag set — raises a KeyError
when `measured_at` or `water_level` is absent; the lag transform returns the
frame unchanged only when it has at most one row. -/
theorem C5_missing_columns (f : PFrame) (cfg : TimeConfig) (ws : List ℕ)
    (lags : List ℚ) :
    (f.rainfall_1h = none → apply_rainfall_features ws f = .ok f) ∧
    (f.temperature = none → f.pressure = none →
      apply_weather_interactions f = .ok f) ∧
    (f.measured_at = none → ∃ e, apply_time_features cfg f = .error e) ∧
    (f.nrows ≤ 1 → apply_lag_features lags f = .ok f) ∧
    (1 < f.nrows → f.measured_at = none →
      ∃ e, apply_lag_features lags f = .error e) ∧
    (1 < f.nrows → f.measured_at ≠ none → lags ≠ [] → f.water_level = none →
      ∃ e, apply_lag_features lags f = .error e) := by
  refine ⟨?_, ?_, ?_, ?_, ?_, ?_⟩
  · intro h
    rw [apply_rainfall_features, h]
  · intro ht hp
    simp only [apply_weather_interactions, ht, hp]
  · intro h
    exact ⟨"KeyError: measured_at", by rw [apply_time_features, h]⟩
  · intro h
    rw [apply_lag_features, if_pos h]
  · intro hn hm
    refine ⟨"KeyError: measured_at", ?_⟩
    rw [apply_lag_features, if_neg (by omega), hm]
  · intro hn hm hl hw
    obtain ⟨ts, hts⟩ := Option.ne_none_iff_exists'.mp hm
    refine ⟨"KeyError: water_level", ?_⟩
    rw [apply_lag_features, if_neg (by omega), hts]
    simp only [hw]
    rw [if_neg (by simpa [List.isEmpty_eq_true] using hl)]

/-- Witness for C5 at a concrete two-row frame with every input column
absent: the rainfall transform no-ops, while the time and lag transforms
error. -/
theorem C5_witness :
    apply_rainfall_features [3]
        ⟨2, none, none, none, none, none, none, [], []⟩ =
      Except.ok ⟨2, none, none, none, none, none, none, [], []⟩ ∧
    (∃ e, apply_time_features ⟨24, 12⟩
        ⟨2, none, none, none, none, none, none, [], []⟩ = Except.error e) ∧
    (∃ e, apply_lag_features [1]
        ⟨2, none, none, none, none, none, none, [], []⟩ = Except.error e) :=
  ⟨(C5_missing_columns ⟨2, none, none, none, none, none, none, [], []⟩
      ⟨24, 12⟩ [3] [1]).1 rfl,
   (C5_missing_columns ⟨2, none, none, none, none, none, none, [], []⟩
      ⟨24, 12⟩ [3] [1]).2.2.1 rfl,
   (C5_missing_columns ⟨2, none, none, none, none, none, none, [], []⟩
      ⟨24, 12⟩ [3] [1]).2.2.2.2.1 (by decide) rfl⟩

/-- Claim C5 counterexample: the time transform on a 2-row frame without
`measured_at`, and the lag transform on a 2-row frame with timestamps but
without `water_level`, raise KeyErrors instead of returning the frame
unchanged — refuting "every feature transform … returns the frame unchanged
rather than raising an error". -/
theorem C5_counterexample :
    apply_time_features ⟨24, 12⟩
        ⟨2, none, some [5, 6], none, none, none, none, [], []⟩ =
      Except.error "KeyError: measured_at" ∧
    apply_lag_features [1]
        ⟨2, some [⟨0, 0, 3, 1, 1⟩, ⟨30, 0, 3, 1, 1⟩], none, none, none, none,
          none, [], []⟩ =
      Except.error "KeyError: water_level" := by
  constructor <;> rfl

theorem cons_ite_append (b : Bool) (a : String) (r : List String) :
    (if b = true then [a] else []) ++ r = if b = true then a :: r else r := by
  cases b <;> simp

theorem stage_applied_time (cs : ConfigMap) :
    stage_applied cs "time_features" = time_features_condition cs := rfl

theorem stage_applied_lag (cs : ConfigMap) :
    stage_applied cs "lag_features" =
      (config_lookup cs "lag_features").isSome := rfl

theorem stage_applied_rolling (cs : ConfigMap) :
    stage_applied cs "rolling_statistics" =
      (config_lookup cs "rolling_statistics").isSome := rfl

theorem stage_applied_rate (cs : ConfigMap) :
    stage_applied cs "rate_of_change" =
      (config_lookup cs "rate_of_change").isSome := rfl

theorem stage_applied_rain (cs : ConfigMap) :
    stage_applied cs "rainfall_features" =
      (config_lookup cs "rainfall_features").isSome := rfl

theorem stage_applied_weather (cs : ConfigMap) :
    stage_applied cs "weather_interactions" =
      (config_lookup cs "weather_interactions").isSome := rfl

theorem stage_applied_station (cs : ConfigMap) :
    stage_applied cs "station_statistics" =
      (config_lookup cs "station_statistics").isSome := rfl

theorem stage_applied_target (cs : ConfigMap) :
    stage_applied cs "target_creation" =
      (config_lookup cs "target_creation").isSome := rfl

theorem stage_applied_clean (cs : ConfigMap) :
    stage_applied cs "data_cleaning" =
      (config_lookup cs "data_cleaning").isSome := rfl

theorem preprocess_stage_trace_eq_filter (cs : ConfigMap) :
    preprocess_stage_trace cs = stage_order.filter (stage_applied cs) := by
  rw [preprocess_stage_trace, stage_order]
  simp only [List.filter_cons, List.filter_nil, stage_applied_time,
    stage_applied_lag, stage_applied_rolling, stage_applied_rate,
    stage_applied_rain, stage_applied_weather, stage_applied_station,
    stage_applied_target, stage_applied_clean, cons_ite_append,
    List.append_nil]

/-- Claim C6 (amended): for every supplied config map the orchestrator
applies the stages in the fixed order time features → lag features → rolling
statistics → rate of change → rainfall features → weather interactions →
station statistics → target creation → cleaning (the trace is a sublist of
that order); the time-features stage is skipped when its key is absent or
its dict config carries enabled = false, but every other stage runs whenever
its key is present — a present-but-disabled config does not skip it; a stage
whose key is absent is always skipped. -/
theorem C6_stage_order (cs : ConfigMap) :
    preprocess_stage_trace cs = stage_order.filter (stage_applied cs) ∧
    (preprocess_stage_trace cs).Sublist stage_order ∧
    ("time_features" ∈ preprocess_stage_trace cs ↔
      time_features_condition cs = true) ∧
    (∀ s ∈ stage_order, s ≠ "time_features" →
      (s ∈ preprocess_stage_trace cs ↔ (config_lookup cs s).isSome = true)) := by
  refine ⟨preprocess_stage_trace_eq_filter cs, ?_, ?_, ?_⟩
  · rw [preprocess_stage_trace_eq_filter cs]
    exact List.filter_sublist _
  · rw [preprocess_stage_trace_eq_filter cs]
    rw [List.mem_filter]
    simp [stage_order, stage_applied_time]
  · intro s hs hne
    rw [preprocess_stage_trace_eq_filter cs]
    rw [List.mem_filter]
    simp only [hs, true_and]
    rw [stage_applied, if_neg (by simpa using hne)]

/-- Witness for C6: a config map holding only lag features and cleaning; the
trace is the filtered stage order and contains the lag stage. -/
theorem C6_witness :
    preprocess_stage_trace
        [("lag_features", ConfigEntry.dict none),
         ("data_cleaning", ConfigEntry.dict none)] =
      stage_order.filter (stage_applied
        [("lag_features", ConfigEntry.dict none),
         ("data_cleaning", ConfigEntry.dict none)]) ∧
    ("lag_features" ∈ preprocess_stage_trace
        [("lag_features", ConfigEntry.dict none),
         ("data_cleaning", ConfigEntry.dict none)] ↔
      (config_lookup
        [("lag_features", ConfigEntry.dict none),
         ("data_cleaning", ConfigEntry.dict none)] "lag_features").isSome = true) :=
  ⟨(C6_stage_order _).1,
   (C6_stage_order _).2.2.2 "lag_features" (by decide) (by decide)⟩

/-- Claim C6 counterexample: the config map {lag_features: {enabled: false}}
names the lag stage as disabled, yet the orchestrator still applies it (only
time features consults `enabled`) — refuting "every stage whose config key is
absent or disabled is skipped".  The absent time-features key is skipped. -/
theorem C6_counterexample :
    config_lookup [("lag_features", ConfigEntry.dict (some false))]
        "lag_features" = some (ConfigEntry.dict (some false)) ∧
    "lag_features" ∈ preprocess_stage_trace
        [("lag_features", ConfigEntry.dict (some false))] ∧
    "time_features" ∉ preprocess_stage_trace
        [("lag_features", ConfigEntry.dict (some false))] := by
  refine ⟨rfl, by decide, by decide⟩
